import Mathlib

/-!
# Shallow embedding of the `quantumworks` security middleware

This file embeds the four in-memory protection components of the backend
(`backend/middleware/rate_limiter.py`, `brute_force_protection.py`,
`ai_protection.py`, `security_monitor.py`) and proves the specification's
claims about them.

Modelling conventions, shared by all four components:

* A `datetime.utcnow()` instant is an integer number of **microseconds**
  (`ℤ`), the resolution of Python's `datetime`.  A `timedelta(seconds = s)`
  is `s * 1000000` microseconds, a `timedelta(minutes = m)` is
  `m * 60000000`, and so on.  Each Python method body reads the clock once
  (`now = datetime.utcnow()`); repeated `utcnow()` calls inside one body are
  identified with that single instant.
* `int((b - a).total_seconds())` for `a < b` truncates toward zero, i.e. it
  is the floor `(b - a) / 10^6`; we write it `(b - a).toNat / 1000000`.
* Python dicts keyed by strings (or ints) become total functions into
  `Option`, `none` meaning the key is absent; `defaultdict` reads become
  `Option.getD` with the default the factory produces.  Python sets of
  strings become duplicate-free lists in insertion order (`set.add` is
  append-if-absent, `set.discard` is `List.erase`).
* A method that can `raise HTTPException` returns a result value carrying
  the data of the exception (status is always the same per raise site, so we
  keep only the payload the spec talks about, e.g. the `Retry-After` value)
  together with the state as mutated up to the raise.
-/

namespace QW

/-- Update one key of a string-keyed dict (Python `d[k] = v` / `del d[k]`
when `v = none`). -/
def upd {α : Type} (f : String → α) (k : String) (v : α) : String → α :=
  fun k' => if k' = k then v else f k'

/-- Update one key of an int-keyed dict. -/
def updN {α : Type} (f : Nat → α) (k : Nat) (v : α) : Nat → α :=
  fun k' => if k' = k then v else f k'

@[simp] theorem upd_same {α : Type} (f : String → α) (k : String) (v : α) :
    upd f k v k = v := by
  simp [upd]

@[simp] theorem upd_other {α : Type} (f : String → α) (k k' : String) (v : α)
    (h : k' ≠ k) : upd f k v k' = f k' := by
  simp [upd, h]

@[simp] theorem updN_same {α : Type} (f : Nat → α) (k : Nat) (v : α) :
    updN f k v k = v := by
  simp [updN]

@[simp] theorem updN_other {α : Type} (f : Nat → α) (k k' : Nat) (v : α)
    (h : k' ≠ k) : updN f k v k' = f k' := by
  simp [updN, h]

/-! ## `backend/middleware/rate_limiter.py` — class `RateLimiter` -/

/-- Outcome of `RateLimiter.check_rate_limit`: either the request is allowed
(the method returns `True`) or an `HTTPException(429)` is raised whose
`Retry-After` header carries the given number of seconds. -/
inductive RLResult where
  | allowed : RLResult
  | rejected : Nat → RLResult
deriving DecidableEq, Repr

/-- The mutable state of a `RateLimiter` instance:
`self.requests : Dict[str, List[datetime]]` (a `defaultdict(list)`, so an
absent key reads as `[]`) and `self.blocked_until : Dict[str, datetime]`. -/
structure RLState where
  requests : String → List ℤ
  blocked_until : String → Option ℤ

/-- The fresh `RateLimiter()` state. -/
def RLState.init : RLState :=
  { requests := fun _ => [], blocked_until := fun _ => none }

/-- Steps (b)–(d) of `check_rate_limit` (everything after the block check):
prune the window, reject-and-block if the pruned count reaches
`max_requests`, otherwise append `now` and allow. -/
def checkWindow (s : RLState) (key : String) (max_requests window_seconds
    block_duration_seconds : Nat) (now : ℤ) : RLResult × RLState :=
  let window_start : ℤ := now - (window_seconds : ℤ) * 1000000
  let pruned := (s.requests key).filter (fun t => window_start < t)
  if max_requests ≤ pruned.length then
    (RLResult.rejected block_duration_seconds,
      { requests := upd s.requests key pruned,
        blocked_until := upd s.blocked_until key
          (some (now + (block_duration_seconds : ℤ) * 1000000)) })
  else
    (RLResult.allowed,
      { requests := upd s.requests key (pruned ++ [now]),
        blocked_until := s.blocked_until })

/-- `RateLimiter.check_rate_limit(key, max_requests, window_seconds,
block_duration_seconds)` called at instant `now`. -/
def check_rate_limit (s : RLState) (key : String) (max_requests
    window_seconds block_duration_seconds : Nat) (now : ℤ) :
    RLResult × RLState :=
  match s.blocked_until key with
  | some u =>
      if now < u then
        (RLResult.rejected ((u - now).toNat / 1000000), s)
      else
        checkWindow
          { requests := upd s.requests key [],
            blocked_until := upd s.blocked_until key none }
          key max_requests window_seconds block_duration_seconds now
  | none =>
      checkWindow s key max_requests window_seconds block_duration_seconds now

/-! ## `backend/middleware/brute_force_protection.py` — class
`BruteForceProtection` -/

/-- The mutable state of a `BruteForceProtection` instance:
`self.failed_attempts : Dict[str, List[datetime]]`,
`self.blocked_until : Dict[str, datetime]`, and
`self.suspicious_ips : Dict[str, set]` (sets of email strings). -/
structure BFState where
  failed_attempts : String → Option (List ℤ)
  blocked_until : String → Option ℤ
  suspicious_ips : String → Option (List String)

/-- The fresh `BruteForceProtection()` state. -/
def BFState.init : BFState :=
  { failed_attempts := fun _ => none, blocked_until := fun _ => none,
    suspicious_ips := fun _ => none }

/-- Python `set.add`: append the element if it is not already present. -/
def setAdd (l : List String) (x : String) : List String :=
  if x ∈ l then l else l ++ [x]

/-- `BruteForceProtection.record_failed_login(email, ip_address,
max_attempts, window_minutes, block_duration_minutes)` at instant `now`.
Defaults in the source: `max_attempts = 5`, `window_minutes = 15`,
`block_duration_minutes = 30`.  Returns the `bool` result and the new
state. -/
def record_failed_login (s : BFState) (email ip_address : String)
    (max_attempts window_minutes block_duration_minutes : Nat) (now : ℤ) :
    Bool × BFState :=
  let identifier := ip_address ++ ":" ++ email
  let cutoff : ℤ := now - (window_minutes : ℤ) * 60000000
  let attempts :=
    (((s.failed_attempts identifier).getD []).filter (fun t => cutoff < t))
      ++ [now]
  let susp := setAdd ((s.suspicious_ips ip_address).getD []) email
  let s1 : BFState :=
    { failed_attempts := upd s.failed_attempts identifier (some attempts),
      blocked_until := s.blocked_until,
      suspicious_ips := upd s.suspicious_ips ip_address (some susp) }
  if max_attempts ≤ attempts.length then
    (true, { s1 with blocked_until := upd s1.blocked_until identifier
                       (some (now + (block_duration_minutes : ℤ) * 60000000)) })
  else if 10 ≤ susp.length then
    (true, { s1 with blocked_until := upd s1.blocked_until
                       ("ip:" ++ ip_address) (some (now + 60 * 60000000)) })
  else
    (false, s1)

/-- `BruteForceProtection.is_blocked(email, ip_address)` at instant `now`:
returns `(is_blocked, seconds_remaining)` and the state (expired blocks are
deleted on the way). -/
def is_blocked (s : BFState) (email ip_address : String) (now : ℤ) :
    (Bool × Nat) × BFState :=
  let identifier := ip_address ++ ":" ++ email
  let ipStep : BFState → (Bool × Nat) × BFState := fun s' =>
    let ip_identifier := "ip:" ++ ip_address
    match s'.blocked_until ip_identifier with
    | some u =>
        if now < u then
          ((true, (u - now).toNat / 1000000), s')
        else
          ((false, 0),
            { s' with blocked_until := upd s'.blocked_until ip_identifier none,
                      suspicious_ips := upd s'.suspicious_ips ip_address none })
    | none => ((false, 0), s')
  match s.blocked_until identifier with
  | some u =>
      if now < u then
        ((true, (u - now).toNat / 1000000), s)
      else
        ipStep
          { s with blocked_until := upd s.blocked_until identifier none,
                   failed_attempts := upd s.failed_attempts identifier none }
  | none => ipStep s

/-- `BruteForceProtection.clear_failed_attempts(email, ip_address)`: delete
the identifier's failure history and block entry, then `discard` the email
from the IP's suspicious set, deleting the set entry if it became empty.
(The three dicts are distinct, so the sequential mutations are rendered as
independent field updates.) -/
def clear_failed_attempts (s : BFState) (email ip_address : String) :
    BFState :=
  let identifier := ip_address ++ ":" ++ email
  { failed_attempts := upd s.failed_attempts identifier none,
    blocked_until := upd s.blocked_until identifier none,
    suspicious_ips :=
      match s.suspicious_ips ip_address with
      | some l =>
          if l.erase email = [] then upd s.suspicious_ips ip_address none
          else upd s.suspicious_ips ip_address (some (l.erase email))
      | none => s.suspicious_ips }

/-! ## `backend/middleware/ai_protection.py` — class `AIEndpointProtection`

`estimated_cost` is a Python float; the costs the program uses (0.01–10.0)
and their running sums stay far from every ceiling that float rounding
could cross in the scenarios the spec states, so we model cost exactly as
`ℚ`. -/

/-- One usage window: `{'count': …, 'cost': …, 'reset_time': …}`. -/
structure Usage where
  count : Nat
  cost : ℚ
  reset_time : ℤ
deriving DecidableEq, Repr

/-- The mutable state of an `AIEndpointProtection` instance:
`self.usage_tracking` (hourly) and `self.daily_usage`, both
`Dict[int, dict]` defaultdicts whose factory produces zero counters with
`reset_time` one hour (resp. one day) from the access instant. -/
structure AIState where
  usage_tracking : Nat → Option Usage
  daily_usage : Nat → Option Usage

/-- The fresh `AIEndpointProtection()` state. -/
def AIState.init : AIState :=
  { usage_tracking := fun _ => none, daily_usage := fun _ => none }

/-- Which window a quota rejection reports. -/
inductive QWindow where
  | hourly : QWindow
  | daily : QWindow
deriving DecidableEq, Repr

/-- Which ceiling a quota rejection reports. -/
inductive QKind where
  | count : QKind
  | cost : QKind
deriving DecidableEq, Repr

/-- Outcome of `check_ai_quota`: allowed, or an `HTTPException(429)` naming
the window and ceiling that was hit, with the `Retry-After` seconds
(`int((reset_time - now).total_seconds())`). -/
inductive QuotaCheck where
  | allowed : QuotaCheck
  | rejected : QWindow → QKind → Nat → QuotaCheck
deriving DecidableEq, Repr

/-- `hourly_limits.get(user_role, hourly_limits["user"])`, split into the
dict lookup proper… -/
def hourly_limits (role : String) : Option (Nat × ℚ) :=
  if role = "admin" then some (100, 10)
  else if role = "employer" then some (20, 2)
  else if role = "freelancer" then some (10, 1)
  else if role = "user" then some (5, 1/2)
  else none

/-- …and likewise `daily_limits.get(user_role, daily_limits["user"])`. -/
def daily_limits (role : String) : Option (Nat × ℚ) :=
  if role = "admin" then some (1000, 100)
  else if role = "employer" then some (100, 10)
  else if role = "freelancer" then some (50, 5)
  else if role = "user" then some (20, 2)
  else none

/-- `AIEndpointProtection.check_ai_quota(user_id, user_role)` at instant
`now`.  (`endpoint_type` is unused by the method body and omitted.) -/
def check_ai_quota (s : AIState) (user_id : Nat) (user_role : String)
    (now : ℤ) : QuotaCheck × AIState :=
  let user_hourly_limit := (hourly_limits user_role).getD (5, 1/2)
  let user_daily_limit := (daily_limits user_role).getD (20, 2)
  let h0 := (s.usage_tracking user_id).getD
    { count := 0, cost := 0, reset_time := now + 3600 * 1000000 }
  let h := if now > h0.reset_time then
    { count := 0, cost := 0, reset_time := now + 3600 * 1000000 } else h0
  let d0 := (s.daily_usage user_id).getD
    { count := 0, cost := 0, reset_time := now + 86400 * 1000000 }
  let d := if now > d0.reset_time then
    { count := 0, cost := 0, reset_time := now + 86400 * 1000000 } else d0
  let s' : AIState :=
    { usage_tracking := updN s.usage_tracking user_id (some h),
      daily_usage := updN s.daily_usage user_id (some d) }
  let result :=
    if h.count ≥ user_hourly_limit.1 then
      QuotaCheck.rejected QWindow.hourly QKind.count
        ((h.reset_time - now).toNat / 1000000)
    else if h.cost ≥ user_hourly_limit.2 then
      QuotaCheck.rejected QWindow.hourly QKind.cost
        ((h.reset_time - now).toNat / 1000000)
    else if d.count ≥ user_daily_limit.1 then
      QuotaCheck.rejected QWindow.daily QKind.count
        ((d.reset_time - now).toNat / 1000000)
    else if d.cost ≥ user_daily_limit.2 then
      QuotaCheck.rejected QWindow.daily QKind.cost
        ((d.reset_time - now).toNat / 1000000)
    else
      QuotaCheck.allowed
  (result, s')

/-- `AIEndpointProtection.record_ai_usage(user_id, endpoint_type,
estimated_cost)` at instant `now`: increments count and cost of both
windows; an absent entry is first created by the defaultdict factory
(zero counters, `reset_time` one hour / one day from `now`).  Note the
method contains no reset logic. -/
def record_ai_usage (s : AIState) (user_id : Nat) (estimated_cost : ℚ)
    (now : ℤ) : AIState :=
  let h := (s.usage_tracking user_id).getD
    { count := 0, cost := 0, reset_time := now + 3600 * 1000000 }
  let d := (s.daily_usage user_id).getD
    { count := 0, cost := 0, reset_time := now + 86400 * 1000000 }
  { usage_tracking := updN s.usage_tracking user_id
      (some { h with count := h.count + 1, cost := h.cost + estimated_cost }),
    daily_usage := updN s.daily_usage user_id
      (some { d with count := d.count + 1, cost := d.cost + estimated_cost }) }

/-- One protected AI call as the endpoints use the pair: check the quota,
and only when allowed record the usage. -/
def callAI (s : AIState) (user_id : Nat) (user_role : String)
    (estimated_cost : ℚ) (now : ℤ) : QuotaCheck × AIState :=
  match check_ai_quota s user_id user_role now with
  | (QuotaCheck.allowed, s') =>
      (QuotaCheck.allowed, record_ai_usage s' user_id estimated_cost now)
  | (r, s') => (r, s')

/-! ## `backend/middleware/security_monitor.py` — class `SecurityMonitor` -/

/-- `SecurityEventType` (enum). -/
inductive SecurityEventType where
  | failed_login | successful_login | rate_limit_exceeded
  | brute_force_detected | suspicious_activity | admin_action
  | ai_quota_exceeded | unauthorized_access | account_created
  | account_deleted | password_changed | role_changed | data_export
  | websocket_abuse
deriving DecidableEq, Repr

/-- `SecurityEventType.value` (the enum's string value). -/
def SecurityEventType.value : SecurityEventType → String
  | .failed_login => "failed_login"
  | .successful_login => "successful_login"
  | .rate_limit_exceeded => "rate_limit_exceeded"
  | .brute_force_detected => "brute_force_detected"
  | .suspicious_activity => "suspicious_activity"
  | .admin_action => "admin_action"
  | .ai_quota_exceeded => "ai_quota_exceeded"
  | .unauthorized_access => "unauthorized_access"
  | .account_created => "account_created"
  | .account_deleted => "account_deleted"
  | .password_changed => "password_changed"
  | .role_changed => "role_changed"
  | .data_export => "data_export"
  | .websocket_abuse => "websocket_abuse"

/-- `SecurityEventSeverity` (enum). -/
inductive SecurityEventSeverity where
  | low | medium | high | critical
deriving DecidableEq, Repr

/-- One entry of `self.events`.  We keep the fields the monitor's control
flow and the claims read (timestamp, type, severity, ip); the
payload-only fields (`user_id`, `user_agent`, `endpoint`, `details`) never
influence any behaviour under verification and are dropped. -/
structure SMEvent where
  timestamp : ℤ
  event_type : SecurityEventType
  severity : SecurityEventSeverity
  ip_address : Option String
deriving DecidableEq, Repr

/-- The mutable state of a `SecurityMonitor` instance: `self.events`,
`self.event_counts : Dict[str, List[datetime]]` (a `defaultdict(list)`)
and `self.alerts_sent : Dict[str, datetime]`. -/
structure SMState where
  events : List SMEvent
  event_counts : String → List ℤ
  alerts_sent : String → Option ℤ

/-- The fresh `SecurityMonitor()` state. -/
def SMState.init : SMState :=
  { events := [], event_counts := fun _ => [], alerts_sent := fun _ => none }

/-- `self.alert_thresholds` (`event_type: max_count_per_hour`); event types
absent from the dict have no threshold. -/
def alert_thresholds : SecurityEventType → Option Nat
  | .failed_login => some 10
  | .rate_limit_exceeded => some 5
  | .brute_force_detected => some 1
  | .unauthorized_access => some 1
  | .ai_quota_exceeded => some 3
  | .admin_action => some 50
  | .websocket_abuse => some 3
  | _ => none

/-- `f"{event_type.value}:{ip_address or 'unknown'}"`. -/
def eventKey (event_type : SecurityEventType) (ip_address : Option String) :
    String :=
  event_type.value ++ ":" ++ ip_address.getD "unknown"

/-- `SecurityMonitor.check_alert_threshold(event_type, ip_address)` at
instant `now`: returns `true` when `send_alert` fires, with the updated
state. -/
def check_alert_threshold (s : SMState) (event_type : SecurityEventType)
    (ip_address : Option String) (now : ℤ) : Bool × SMState :=
  match alert_thresholds event_type with
  | none => (false, s)
  | some threshold =>
      let event_key := eventKey event_type ip_address
      let cutoff : ℤ := now - 3600 * 1000000
      let pruned := (s.event_counts event_key).filter (fun t => cutoff < t)
      let s1 := { s with event_counts := upd s.event_counts event_key pruned }
      if threshold ≤ pruned.length then
        match s1.alerts_sent event_key with
        | some last_alert =>
            if now - last_alert < 3600 * 1000000 then
              (false, s1)
            else
              (true, { s1 with alerts_sent :=
                                 upd s1.alerts_sent event_key (some now) })
        | none =>
            (true, { s1 with alerts_sent :=
                               upd s1.alerts_sent event_key (some now) })
      else
        (false, s1)

/-- Outcome flags of one `log_security_event` call: whether the
threshold-based `send_alert` fired and whether the critical-severity
`send_immediate_alert` fired. -/
structure LogOutcome where
  alerted : Bool
  immediate : Bool
deriving DecidableEq, Repr

/-- `SecurityMonitor.log_security_event(event_type, severity, …,
ip_address, …)` at instant `now`. -/
def log_security_event (s : SMState) (event_type : SecurityEventType)
    (severity : SecurityEventSeverity) (ip_address : Option String)
    (now : ℤ) : LogOutcome × SMState :=
  let event : SMEvent :=
    { timestamp := now, event_type := event_type, severity := severity,
      ip_address := ip_address }
  let events1 := s.events ++ [event]
  let events2 :=
    if 10000 < events1.length then events1.drop (events1.length - 10000)
    else events1
  let event_key := eventKey event_type ip_address
  let s1 : SMState :=
    { events := events2,
      event_counts := upd s.event_counts event_key
        (s.event_counts event_key ++ [now]),
      alerts_sent := s.alerts_sent }
  let r := check_alert_threshold s1 event_type ip_address now
  ({ alerted := r.1,
     immediate := severity = SecurityEventSeverity.critical }, r.2)

/-! ## Theorems -/

/-- C1 (amended: the configuration must have `max_requests ≥ 1`; for
`max_requests = 0` the post-block check rejects again instead of
succeeding).  For every key and every configuration with `max_requests ≥ 1`:
if the key is unblocked and `max_requests` checks have succeeded within the
last `window_seconds` (their timestamps survive the pruning at `now`), the
next check rejects and installs a block until
`now + block_duration_seconds`, and a check made once `block_duration_seconds`
have elapsed since the block was installed succeeds again with a fresh
window holding only that check's own timestamp. -/
theorem C1_amended (s : RLState) (key : String)
    (max_requests window_seconds block_duration_seconds : Nat) (now now2 : ℤ)
    (hmax : 1 ≤ max_requests)
    (hnoblock : s.blocked_until key = none)
    (hfull : max_requests ≤ ((s.requests key).filter
        (fun t => now - (window_seconds : ℤ) * 1000000 < t)).length)
    (hlater : now + (block_duration_seconds : ℤ) * 1000000 ≤ now2) :
    (check_rate_limit s key max_requests window_seconds block_duration_seconds now).1
        = RLResult.rejected block_duration_seconds ∧
    (check_rate_limit s key max_requests window_seconds block_duration_seconds now).2.blocked_until key
        = some (now + (block_duration_seconds : ℤ) * 1000000) ∧
    (check_rate_limit
        (check_rate_limit s key max_requests window_seconds block_duration_seconds now).2
        key max_requests window_seconds block_duration_seconds now2).1 = RLResult.allowed ∧
    (check_rate_limit
        (check_rate_limit s key max_requests window_seconds block_duration_seconds now).2
        key max_requests window_seconds block_duration_seconds now2).2.requests key = [now2] := by
  have hstep : check_rate_limit s key max_requests window_seconds block_duration_seconds now
      = (RLResult.rejected block_duration_seconds,
          { requests := upd s.requests key ((s.requests key).filter
              (fun t => now - (window_seconds : ℤ) * 1000000 < t)),
            blocked_until := upd s.blocked_until key
              (some (now + (block_duration_seconds : ℤ) * 1000000)) }) := by
    simp [check_rate_limit, hnoblock, checkWindow, hfull]
  have hnotlt : ¬ now2 < now + (block_duration_seconds : ℤ) * 1000000 := not_lt.mpr hlater
  have hmax0 : ¬ max_requests ≤ 0 := by omega
  rw [hstep]
  refine ⟨rfl, by simp, ?_, ?_⟩ <;>
    simp [check_rate_limit, checkWindow, hnotlt, hmax0, upd]

/-- A concrete rate-limiter state for `C1_witness`: key `"k"` is unblocked
and holds five window entries. -/
def rlFive : RLState :=
  { requests := fun k => if k = "k" then
      [900000000, 910000000, 920000000, 930000000, 940000000] else [],
    blocked_until := fun _ => none }

/-- Witness for `C1_amended`: with `max_requests = 5`, a window of 60 s, a
block of 300 s, five successes in the last second, a sixth check at
`t = 941 s` rejects and blocks until `t = 1241 s`, and a check at `1241 s`
is allowed with window `[1241 s]`. -/
theorem C1_witness :
    (1 ≤ 5 ∧ rlFive.blocked_until "k" = none ∧
      5 ≤ ((rlFive.requests "k").filter
        (fun t => (941000000 : ℤ) - (60 : ℤ) * 1000000 < t)).length ∧
      (941000000 : ℤ) + (300 : ℤ) * 1000000 ≤ 1241000000) ∧
    ((check_rate_limit rlFive "k" 5 60 300 941000000).1 = RLResult.rejected 300 ∧
     (check_rate_limit rlFive "k" 5 60 300 941000000).2.blocked_until "k"
        = some (941000000 + (300 : ℤ) * 1000000) ∧
     (check_rate_limit (check_rate_limit rlFive "k" 5 60 300 941000000).2
        "k" 5 60 300 1241000000).1 = RLResult.allowed ∧
     (check_rate_limit (check_rate_limit rlFive "k" 5 60 300 941000000).2
        "k" 5 60 300 1241000000).2.requests "k" = [(1241000000 : ℤ)]) :=
  ⟨⟨by decide, by decide, by decide, by decide⟩,
    C1_amended rlFive "k" 5 60 300 941000000 1241000000 (by decide)
      (by decide) (by decide) (by decide)⟩

/-- C1 counterexample: at the configuration `max_requests = 0` (the claim
quantifies over *every* configuration) the antecedent "`max_requests`
checks succeeded within the window" holds vacuously for a fresh key, the
next check rejects and installs a block — but a check made after the
`300 s` block has elapsed (here at `t = 400 s`) rejects again instead of
succeeding, refuting the claim as stated. -/
theorem C1_cex :
    (check_rate_limit RLState.init "k" 0 60 300 0).1 = RLResult.rejected 300 ∧
    (check_rate_limit RLState.init "k" 0 60 300 0).2.blocked_until "k"
      = some 300000000 ∧
    (check_rate_limit (check_rate_limit RLState.init "k" 0 60 300 0).2
      "k" 0 60 300 400000000).1 ≠ RLResult.allowed := by
  decide

/-- C7: for every key with an unexpired block, a check during the block
rejects with the remaining whole seconds as `Retry-After` and leaves the
state — in particular the key's window — completely unchanged; once the
block has expired, the next check proceeds on the state with the block
entry removed and the key's window reset to `[]`. -/
theorem C7_blocked (s : RLState) (key : String)
    (max_requests window_seconds block_duration_seconds : Nat) (now u : ℤ)
    (hb : s.blocked_until key = some u) :
    (now < u →
      check_rate_limit s key max_requests window_seconds block_duration_seconds now
        = (RLResult.rejected ((u - now).toNat / 1000000), s)) ∧
    (u ≤ now →
      check_rate_limit s key max_requests window_seconds block_duration_seconds now
        = checkWindow
            { requests := upd s.requests key [],
              blocked_until := upd s.blocked_until key none }
            key max_requests window_seconds block_duration_seconds now) := by
  constructor
  · intro h
    simp [check_rate_limit, hb, h]
  · intro h
    simp [check_rate_limit, hb, not_lt.mpr h]

/-- A concrete rate-limiter state used by several witnesses: key `"k"` is
blocked until `t = 30 s`. -/
def rlBlocked30 : RLState :=
  { requests := fun _ => [],
    blocked_until := fun k => if k = "k" then some 30000000 else none }

/-- Witness for `C7_blocked`: a check at `t = 1 µs` against a block that
expires at `t = 30 s` rejects with 29 remaining seconds and leaves the
state untouched. -/
theorem C7_witness :
    rlBlocked30.blocked_until "k" = some 30000000 ∧ (1 : ℤ) < 30000000 ∧
    check_rate_limit rlBlocked30 "k" 5 60 300 1
      = (RLResult.rejected (((30000000 : ℤ) - 1).toNat / 1000000), rlBlocked30) :=
  ⟨by decide, by decide,
    (C7_blocked rlBlocked30 "k" 5 60 300 1 30000000 (by decide)).1 (by decide)⟩

/-- C9 (amended: "strictly decreasing" must weaken to "non-increasing":
`Retry-After` is the *truncated* whole number of remaining seconds, so two
checks within the same second report the same value).  For every blocked
key and any two successive checks at increasing times inside the block,
both reject, the state is unchanged, and the reported seconds do not
increase. -/
theorem C9_amended (s : RLState) (key : String)
    (max_requests window_seconds block_duration_seconds : Nat)
    (now1 now2 u : ℤ) (hb : s.blocked_until key = some u)
    (h12 : now1 ≤ now2) (h2u : now2 < u) :
    check_rate_limit s key max_requests window_seconds block_duration_seconds now1
      = (RLResult.rejected ((u - now1).toNat / 1000000), s) ∧
    check_rate_limit s key max_requests window_seconds block_duration_seconds now2
      = (RLResult.rejected ((u - now2).toNat / 1000000), s) ∧
    (u - now2).toNat / 1000000 ≤ (u - now1).toNat / 1000000 := by
  have h1u : now1 < u := lt_of_le_of_lt h12 h2u
  have hmono : (u - now2).toNat ≤ (u - now1).toNat := by omega
  exact ⟨by simp [check_rate_limit, hb, h1u],
    by simp [check_rate_limit, hb, h2u],
    Nat.div_le_div_right hmono⟩

/-- Witness for `C9_amended`: checks at `t = 1 µs` and `t = 2 µs` against a
block expiring at `t = 30 s` both reject and the reported seconds do not
increase. -/
theorem C9_witness :
    (1 : ℤ) ≤ 2 ∧ (2 : ℤ) < 30000000 ∧
    (check_rate_limit rlBlocked30 "k" 5 60 300 1
      = (RLResult.rejected (((30000000 : ℤ) - 1).toNat / 1000000), rlBlocked30) ∧
     check_rate_limit rlBlocked30 "k" 5 60 300 2
      = (RLResult.rejected (((30000000 : ℤ) - 2).toNat / 1000000), rlBlocked30) ∧
     ((30000000 : ℤ) - 2).toNat / 1000000 ≤ ((30000000 : ℤ) - 1).toNat / 1000000) :=
  ⟨by decide, by decide,
    C9_amended rlBlocked30 "k" 5 60 300 1 2 30000000 (by decide) (by decide)
      (by decide)⟩

/-- C9 counterexample: two successive checks at the strictly increasing
times `1 µs` and `2 µs`, both inside a block expiring at `30 s`, report the
*same* `retry_after` of 29 seconds, so the sequence is not strictly
decreasing as the claim states. -/
theorem C9_cex :
    (1 : ℤ) < 2 ∧ (2 : ℤ) < 30000000 ∧
    (check_rate_limit rlBlocked30 "k" 5 60 300 1).1 = RLResult.rejected 29 ∧
    (check_rate_limit (check_rate_limit rlBlocked30 "k" 5 60 300 1).2
      "k" 5 60 300 2).1 = RLResult.rejected 29 ∧ ¬ (29 < 29) := by
  decide

/-- C2: with the default configuration (5 attempts / 15 min window
(`900000000 µs`) / 30 min block (`1800000000 µs`)): (1) a recorded failure
that brings the `ip:email` identifier to 5 failures inside the window
returns `true` and blocks that identifier for 30 minutes; (2) a recorded
failure that stays below the per-identifier threshold but brings the IP's
distinct-email set to 10 returns `true` and places a 60-minute
(`3600000000 µs`) block keyed `ip:<ip>`, leaving every other block entry —
in particular any per-identifier block — untouched. -/
theorem C2_thm (s : BFState) (email ip_address : String) (now : ℤ) :
    (4 ≤ (((s.failed_attempts (ip_address ++ ":" ++ email)).getD []).filter
        (fun t => now - 900000000 < t)).length →
      (record_failed_login s email ip_address 5 15 30 now).1 = true ∧
      (record_failed_login s email ip_address 5 15 30 now).2.blocked_until
        (ip_address ++ ":" ++ email) = some (now + 1800000000)) ∧
    ((((s.failed_attempts (ip_address ++ ":" ++ email)).getD []).filter
        (fun t => now - 900000000 < t)).length + 1 < 5 →
      10 ≤ (setAdd ((s.suspicious_ips ip_address).getD []) email).length →
      (record_failed_login s email ip_address 5 15 30 now).1 = true ∧
      (record_failed_login s email ip_address 5 15 30 now).2.blocked_until
        ("ip:" ++ ip_address) = some (now + 3600000000) ∧
      (∀ k, k ≠ "ip:" ++ ip_address →
        (record_failed_login s email ip_address 5 15 30 now).2.blocked_until k
          = s.blocked_until k)) := by
  constructor
  · intro h
    constructor
    · simp [record_failed_login, h]
    · simp [record_failed_login, h]
  · intro h1 h2
    have hlt : ¬ 4 ≤ (((s.failed_attempts (ip_address ++ ":" ++ email)).getD
        []).filter (fun t => now - 900000000 < t)).length := by omega
    refine ⟨?_, ?_, ?_⟩
    · simp [record_failed_login, hlt, h2]
    · simp [record_failed_login, hlt, h2]
    · intro k hk
      simp [record_failed_login, hlt, h2, upd_other _ _ _ _ hk]

/-- A brute-force state for `C2_witness` part 1: identifier `"ip1:alice"`
already has four recent failures. -/
def bfFour : BFState :=
  { failed_attempts := fun k => if k = "ip1:alice" then some [1, 2, 3, 4] else none,
    blocked_until := fun _ => none,
    suspicious_ips := fun k => if k = "ip1" then some ["alice"] else none }

/-- A brute-force state for `C2_witness` part 2: IP `"ip1"` has already
tried nine distinct emails, each identifier far below five failures. -/
def bfNine : BFState :=
  { failed_attempts := fun _ => none,
    blocked_until := fun _ => none,
    suspicious_ips := fun k => if k = "ip1" then
      some ["a", "b", "c", "d", "e", "f", "g", "h", "i"] else none }

/-- Witness for `C2_thm`: a fifth failure for `"ip1:alice"` blocks the
identifier for 30 minutes, and a first failure for a tenth distinct email
from `"ip1"` blocks `"ip:ip1"` for 60 minutes. -/
theorem C2_witness :
    (4 ≤ (((bfFour.failed_attempts "ip1:alice").getD []).filter
        (fun t => (5 : ℤ) - 900000000 < t)).length ∧
      (record_failed_login bfFour "alice" "ip1" 5 15 30 5).1 = true ∧
      (record_failed_login bfFour "alice" "ip1" 5 15 30 5).2.blocked_until
        "ip1:alice" = some (5 + 1800000000)) ∧
    ((((bfNine.failed_attempts "ip1:j").getD []).filter
        (fun t => (7 : ℤ) - 900000000 < t)).length + 1 < 5 ∧
      10 ≤ (setAdd ((bfNine.suspicious_ips "ip1").getD []) "j").length ∧
      (record_failed_login bfNine "j" "ip1" 5 15 30 7).1 = true ∧
      (record_failed_login bfNine "j" "ip1" 5 15 30 7).2.blocked_until
        "ip:ip1" = some (7 + 3600000000)) :=
  ⟨⟨by decide, (C2_thm bfFour "alice" "ip1" 5).1 (by decide)⟩,
    ⟨by decide, by decide,
      ((C2_thm bfNine "j" "ip1" 7).2 (by decide) (by decide)).1,
      ((C2_thm bfNine "j" "ip1" 7).2 (by decide) (by decide)).2.1⟩⟩

/-- C8 (amended: only the *per-identifier* block is removed; an IP-wide
`ip:<ip>` block survives `clear` and keeps `is_blocked` true until it
expires).  `clear(email, ip)` removes the identifier's failure history and
block entry, removes the email from the IP's suspicious set — deleting the
set entry when it becomes empty — leaves the `ip:<ip>` block entry exactly
as it was, and the next `is_blocked` returns `(false, 0)` provided no
unexpired IP-wide block exists. -/
theorem C8_amended (s : BFState) (email ip_address : String) (now : ℤ)
    (hne : ip_address ++ ":" ++ email ≠ "ip:" ++ ip_address) :
    (clear_failed_attempts s email ip_address).failed_attempts
        (ip_address ++ ":" ++ email) = none ∧
    (clear_failed_attempts s email ip_address).blocked_until
        (ip_address ++ ":" ++ email) = none ∧
    (clear_failed_attempts s email ip_address).blocked_until
        ("ip:" ++ ip_address) = s.blocked_until ("ip:" ++ ip_address) ∧
    (∀ l, s.suspicious_ips ip_address = some l →
      (clear_failed_attempts s email ip_address).suspicious_ips ip_address
        = if l.erase email = [] then none else some (l.erase email)) ∧
    ((∀ u, s.blocked_until ("ip:" ++ ip_address) = some u → u ≤ now) →
      (is_blocked (clear_failed_attempts s email ip_address) email ip_address
        now).1 = (false, 0)) := by
  have hne' : "ip:" ++ ip_address ≠ ip_address ++ ":" ++ email :=
    fun hx => hne hx.symm
  refine ⟨by simp [clear_failed_attempts], by simp [clear_failed_attempts],
    by simp [clear_failed_attempts, upd_other _ _ _ _ hne'], ?_, ?_⟩
  · intro l hl
    simp [clear_failed_attempts, hl]
    split <;> simp
  · intro hip
    have hfchk : (clear_failed_attempts s email ip_address).blocked_until
        (ip_address ++ ":" ++ email) = none := by simp [clear_failed_attempts]
    have hipchk : (clear_failed_attempts s email ip_address).blocked_until
        ("ip:" ++ ip_address) = s.blocked_until ("ip:" ++ ip_address) := by
      simp [clear_failed_attempts, upd_other _ _ _ _ hne']
    cases hu : s.blocked_until ("ip:" ++ ip_address) with
    | none =>
        simp [is_blocked, hfchk, hipchk, hu]
    | some u =>
        have := hip u hu
        simp [is_blocked, hfchk, hipchk, hu, not_lt.mpr this]

/-- A brute-force state for `C8_witness`: identifier `"ip1:alice"` is
blocked and has failure history; no IP-wide block. -/
def bfIdBlocked : BFState :=
  { failed_attempts := fun k => if k = "ip1:alice" then some [1, 2] else none,
    blocked_until := fun k => if k = "ip1:alice" then some 3600000000 else none,
    suspicious_ips := fun k => if k = "ip1" then some ["alice", "bob"] else none }

/-- Witness for `C8_amended`: clearing `("alice", "ip1")` on a state with a
per-identifier block removes history, block, and the email from the
suspicious set, and the next `is_blocked` returns `(false, 0)`. -/
theorem C8_witness :
    ("ip1" ++ ":" ++ "alice" ≠ "ip:" ++ "ip1") ∧
    ((clear_failed_attempts bfIdBlocked "alice" "ip1").failed_attempts
        ("ip1" ++ ":" ++ "alice") = none ∧
     (clear_failed_attempts bfIdBlocked "alice" "ip1").blocked_until
        ("ip1" ++ ":" ++ "alice") = none ∧
     (clear_failed_attempts bfIdBlocked "alice" "ip1").blocked_until
        ("ip:" ++ "ip1") = bfIdBlocked.blocked_until ("ip:" ++ "ip1") ∧
     (∀ l, bfIdBlocked.suspicious_ips "ip1" = some l →
       (clear_failed_attempts bfIdBlocked "alice" "ip1").suspicious_ips "ip1"
         = if l.erase "alice" = [] then none else some (l.erase "alice")) ∧
     ((∀ u, bfIdBlocked.blocked_until ("ip:" ++ "ip1") = some u → u ≤ 0) →
       (is_blocked (clear_failed_attempts bfIdBlocked "alice" "ip1") "alice"
         "ip1" 0).1 = (false, 0))) :=
  ⟨by decide, C8_amended bfIdBlocked "alice" "ip1" 0 (by decide)⟩

/-- A brute-force state for `C8_cex`: IP `"ip1"` carries an unexpired
IP-wide block `"ip:ip1"`. -/
def bfIPBlocked : BFState :=
  { failed_attempts := fun k => if k = "ip1:alice" then some [1] else none,
    blocked_until := fun k => if k = "ip:ip1" then some 3600000000 else none,
    suspicious_ips := fun k => if k = "ip1" then some ["alice", "bob"] else none }

/-- C8 counterexample: with an IP-wide block set (the claim covers
"per-identifier or IP-wide"), `clear("alice", "ip1")` does *not* remove the
block — the next `is_blocked("alice", "ip1")` still returns `true` (with
3600 s remaining), refuting the claim as stated. -/
theorem C8_cex :
    bfIPBlocked.blocked_until "ip:ip1" = some 3600000000 ∧
    (is_blocked (clear_failed_attempts bfIPBlocked "alice" "ip1") "alice" "ip1"
      0).1 = (true, 3600) := by
  decide

/-- A sequence of protected AI calls (check, then record when allowed) at
the given instants, collecting the per-call outcomes. -/
def runCalls (s : AIState) (user_id : Nat) (user_role : String) (cost : ℚ) :
    List ℤ → List QuotaCheck × AIState
  | [] => ([], s)
  | t :: ts =>
      let r := callAI s user_id user_role cost t
      let rest := runCalls r.2 user_id user_role cost ts
      (r.1 :: rest.1, rest.2)

/-- A quota state in which user 1 has `n` calls of total cost `q` in both
windows, the hourly window resetting at `3600 s` and the daily window at
`86400 s` (as created by a first check at instant 0). -/
def aiW (n : Nat) (q : ℚ) : AIState :=
  { usage_tracking := fun k => if k = 1 then
      some { count := n, cost := q, reset_time := 3600000000 } else none,
    daily_usage := fun k => if k = 1 then
      some { count := n, cost := q, reset_time := 86400000000 } else none }

/-- Writing back the value a key already holds leaves the dict unchanged. -/
lemma updN_eq_self {α : Type} (f : Nat → α) (k : Nat) (v : α) (h : f k = v) :
    updN f k v = f := by
  funext k'
  by_cases hk : k' = k
  · subst hk
    simp [updN, h]
  · simp [updN, hk]

/-- A check below every ceiling and before both resets is allowed and
leaves the state unchanged. -/
lemma chk_small (n : Nat) (q : ℚ) (t : ℤ) (hn : n < 5) (hq : q < 1/2)
    (hqd : q < 2) (ht : ¬ (3600000000 : ℤ) < t)
    (htd : ¬ (86400000000 : ℤ) < t) :
    check_ai_quota (aiW n q) 1 "user" t = (QuotaCheck.allowed, aiW n q) := by
  have ha : (aiW n q).usage_tracking 1
      = some { count := n, cost := q, reset_time := 3600000000 } := by
    simp [aiW]
  have hb : (aiW n q).daily_usage 1
      = some { count := n, cost := q, reset_time := 86400000000 } := by
    simp [aiW]
  have h1 : ¬ (5 : Nat) ≤ n := by omega
  have h2 : ¬ (1/2 : ℚ) ≤ q := not_le.mpr hq
  have h3 : ¬ (20 : Nat) ≤ n := by omega
  have h4 : ¬ (2 : ℚ) ≤ q := not_le.mpr hqd
  have hl : hourly_limits "user" = some (5, 1/2) := by with_unfolding_all rfl
  have hld : daily_limits "user" = some (20, 2) := by with_unfolding_all rfl
  simp only [check_ai_quota, ha, hb, hl, hld, Option.getD_some]
  norm_num [h1, h2, h3, h4, ht, htd, updN_eq_self _ _ _ ha,
    updN_eq_self _ _ _ hb]

/-- Recording on an `aiW` state increments both windows' count and cost. -/
lemma rec_step (n : Nat) (q c : ℚ) (t : ℤ) :
    record_ai_usage (aiW n q) 1 c t = aiW (n + 1) (q + c) := by
  have ha : (aiW n q).usage_tracking 1
      = some { count := n, cost := q, reset_time := 3600000000 } := by
    simp [aiW]
  have hb : (aiW n q).daily_usage 1
      = some { count := n, cost := q, reset_time := 86400000000 } := by
    simp [aiW]
  simp only [record_ai_usage, ha, hb, Option.getD_some]
  congr 1 <;> funext k <;> by_cases hk : k = 1 <;> simp [aiW, updN, hk]

/-- `callAI` on an allowed check records the usage. -/
lemma callAI_of_allowed {s s' : AIState} {u : Nat} {r : String} {c : ℚ}
    {t : ℤ} (h : check_ai_quota s u r t = (QuotaCheck.allowed, s')) :
    callAI s u r c t = (QuotaCheck.allowed, record_ai_usage s' u c t) := by
  simp [callAI, h]

/-- `callAI` on a rejected check records nothing. -/
lemma callAI_of_rejected {s s' : AIState} {u : Nat} {r : String} {c : ℚ}
    {t : ℤ} {w : QWindow} {k : QKind} {n : Nat}
    (h : check_ai_quota s u r t = (QuotaCheck.rejected w k n, s')) :
    callAI s u r c t = (QuotaCheck.rejected w k n, s') := by
  simp [callAI, h]

/-- The first check, on the fresh state at instant 0, is allowed and
creates both zeroed windows. -/
lemma chk_init : check_ai_quota AIState.init 1 "user" 0
    = (QuotaCheck.allowed, aiW 0 0) := by
  have hl : hourly_limits "user" = some (5, 1/2) := by with_unfolding_all rfl
  have hld : daily_limits "user" = some (20, 2) := by with_unfolding_all rfl
  simp only [check_ai_quota, AIState.init, hl, hld, Option.getD_none]
  norm_num
  congr 1

/-- With 5 hourly calls already counted, a check at `t = 5 s` is rejected
on the hourly *count* ceiling (even though the hourly cost ceiling `0.5` is
also reached) with 3595 whole seconds to the reset. -/
lemma chk_reject5 : check_ai_quota (aiW 5 (1/2)) 1 "user" 5000000
    = (QuotaCheck.rejected QWindow.hourly QKind.count 3595, aiW 5 (1/2)) := by
  have ha : (aiW 5 (1/2)).usage_tracking 1
      = some { count := 5, cost := 1/2, reset_time := 3600000000 } := by
    simp [aiW]
  have hb : (aiW 5 (1/2)).daily_usage 1
      = some { count := 5, cost := 1/2, reset_time := 86400000000 } := by
    simp [aiW]
  have hl : hourly_limits "user" = some (5, 1/2) := by with_unfolding_all rfl
  have hld : daily_limits "user" = some (20, 2) := by with_unfolding_all rfl
  simp only [check_ai_quota, ha, hb, hl, hld, Option.getD_some]
  norm_num [updN_eq_self _ _ _ ha, updN_eq_self _ _ _ hb]
  decide

/-- The state after the hourly window of `aiW 5 (1/2)` lazily resets at
instant `3601 s`. -/
def aiReset : AIState :=
  { usage_tracking := fun k => if k = 1 then
      some { count := 0, cost := 0, reset_time := 7201000000 } else none,
    daily_usage := fun k => if k = 1 then
      some { count := 5, cost := 1/2, reset_time := 86400000000 } else none }

/-- A check one second after the hourly reset instant resets the hourly
window and is allowed again. -/
lemma chk_reset : check_ai_quota (aiW 5 (1/2)) 1 "user" 3601000000
    = (QuotaCheck.allowed, aiReset) := by
  have ha : (aiW 5 (1/2)).usage_tracking 1
      = some { count := 5, cost := 1/2, reset_time := 3600000000 } := by
    simp [aiW]
  have hb : (aiW 5 (1/2)).daily_usage 1
      = some { count := 5, cost := 1/2, reset_time := 86400000000 } := by
    simp [aiW]
  have hl : hourly_limits "user" = some (5, 1/2) := by with_unfolding_all rfl
  have hld : daily_limits "user" = some (20, 2) := by with_unfolding_all rfl
  simp only [check_ai_quota, ha, hb, hl, hld, Option.getD_some]
  norm_num
  congr 1 <;> funext k <;> by_cases hk : k = 1 <;>
    norm_num [aiW, aiReset, updN, hk]

/-- C3: a fresh `"user"`-role account making AI calls of cost `0.1` at
`t = 0, 1, 2, 3, 4 s` is admitted on all five; the check before the sixth
call at `t = 5 s` rejects on the *hourly count* ceiling (not cost — the
hourly cost ceiling is simultaneously reached — and not daily) with
exactly 3595 whole seconds to the hourly reset; and one second after the
hourly reset instant (`t = 3601 s`) the sixth call's check is admitted
again. -/
theorem C3_thm :
    (runCalls AIState.init 1 "user" (1/10)
        [0, 1000000, 2000000, 3000000, 4000000]).1
      = [QuotaCheck.allowed, QuotaCheck.allowed, QuotaCheck.allowed,
         QuotaCheck.allowed, QuotaCheck.allowed] ∧
    (callAI (runCalls AIState.init 1 "user" (1/10)
        [0, 1000000, 2000000, 3000000, 4000000]).2 1 "user" (1/10) 5000000).1
      = QuotaCheck.rejected QWindow.hourly QKind.count 3595 ∧
    (callAI (callAI (runCalls AIState.init 1 "user" (1/10)
        [0, 1000000, 2000000, 3000000, 4000000]).2 1 "user" (1/10) 5000000).2
      1 "user" (1/10) 3601000000).1 = QuotaCheck.allowed := by
  have e1 : callAI AIState.init 1 "user" (1/10) 0
      = (QuotaCheck.allowed, aiW 1 (1/10)) := by
    rw [callAI_of_allowed chk_init, rec_step]
    norm_num
  have e2 : callAI (aiW 1 (1/10)) 1 "user" (1/10) 1000000
      = (QuotaCheck.allowed, aiW 2 (2/10)) := by
    rw [callAI_of_allowed (chk_small 1 (1/10) 1000000 (by norm_num)
      (by norm_num) (by norm_num) (by norm_num) (by norm_num)), rec_step]
    norm_num
  have e3 : callAI (aiW 2 (2/10)) 1 "user" (1/10) 2000000
      = (QuotaCheck.allowed, aiW 3 (3/10)) := by
    rw [callAI_of_allowed (chk_small 2 (2/10) 2000000 (by norm_num)
      (by norm_num) (by norm_num) (by norm_num) (by norm_num)), rec_step]
    norm_num
  have e4 : callAI (aiW 3 (3/10)) 1 "user" (1/10) 3000000
      = (QuotaCheck.allowed, aiW 4 (4/10)) := by
    rw [callAI_of_allowed (chk_small 3 (3/10) 3000000 (by norm_num)
      (by norm_num) (by norm_num) (by norm_num) (by norm_num)), rec_step]
    norm_num
  have e5 : callAI (aiW 4 (4/10)) 1 "user" (1/10) 4000000
      = (QuotaCheck.allowed, aiW 5 (1/2)) := by
    rw [callAI_of_allowed (chk_small 4 (4/10) 4000000 (by norm_num)
      (by norm_num) (by norm_num) (by norm_num) (by norm_num)), rec_step]
    norm_num
  have e6 : callAI (aiW 5 (1/2)) 1 "user" (1/10) 5000000
      = (QuotaCheck.rejected QWindow.hourly QKind.count 3595, aiW 5 (1/2)) :=
    callAI_of_rejected chk_reject5
  have e7 : callAI (aiW 5 (1/2)) 1 "user" (1/10) 3601000000
      = (QuotaCheck.allowed, record_ai_usage aiReset 1 (1/10) 3601000000) :=
    callAI_of_allowed chk_reset
  refine ⟨?_, ?_, ?_⟩ <;> simp only [runCalls, e1, e2, e3, e4, e5, e6, e7]

/-- C4 (amended: only `check` resets an expired window; `record` never
does).  For every user and window: a check observing `now > reset_time`
replaces the tuple with zeroed counters and `reset_time` one hour (resp.
one day) ahead; `record` unconditionally increments count by 1 and cost by
the supplied amount while keeping `reset_time` — even when the window has
expired. -/
theorem C4_amended (s : AIState) (user_id : Nat) (user_role : String)
    (cost : ℚ) (now : ℤ) :
    (∀ c q r, s.usage_tracking user_id = some ⟨c, q, r⟩ → now > r →
      (check_ai_quota s user_id user_role now).2.usage_tracking user_id
        = some ⟨0, 0, now + 3600 * 1000000⟩) ∧
    (∀ c q r, s.daily_usage user_id = some ⟨c, q, r⟩ → now > r →
      (check_ai_quota s user_id user_role now).2.daily_usage user_id
        = some ⟨0, 0, now + 86400 * 1000000⟩) ∧
    (∀ c q r, s.usage_tracking user_id = some ⟨c, q, r⟩ →
      (record_ai_usage s user_id cost now).usage_tracking user_id
        = some ⟨c + 1, q + cost, r⟩) ∧
    (∀ c q r, s.daily_usage user_id = some ⟨c, q, r⟩ →
      (record_ai_usage s user_id cost now).daily_usage user_id
        = some ⟨c + 1, q + cost, r⟩) := by
  refine ⟨?_, ?_, ?_, ?_⟩
  · intro c q r hu hr2
    simp [check_ai_quota, hu, hr2]
  · intro c q r hu hr2
    simp [check_ai_quota, hu, hr2]
  · intro c q r hu
    simp [record_ai_usage, hu]
  · intro c q r hu
    simp [record_ai_usage, hu]

/-- A quota state whose hourly window for user 1 expired long ago
(`reset_time = 100 µs`). -/
def aiStale : AIState :=
  { usage_tracking := fun k => if k = 1 then
      some { count := 3, cost := 3/10, reset_time := 100 } else none,
    daily_usage := fun k => if k = 1 then
      some { count := 3, cost := 3/10, reset_time := 200 } else none }

/-- Witness for `C4_amended`: on the stale state, a check at `t = 7200 s`
resets the hourly tuple, while a record at the same instant increments the
stale tuple without resetting it. -/
theorem C4_witness :
    (aiStale.usage_tracking 1 = some ⟨3, 3/10, 100⟩ ∧ (7200000000 : ℤ) > 100 ∧
      (check_ai_quota aiStale 1 "user" 7200000000).2.usage_tracking 1
        = some ⟨0, 0, 7200000000 + 3600 * 1000000⟩) ∧
    (aiStale.usage_tracking 1 = some ⟨3, 3/10, 100⟩ ∧
      (record_ai_usage aiStale 1 (1/10) 7200000000).usage_tracking 1
        = some ⟨3 + 1, 3/10 + 1/10, 100⟩) :=
  ⟨⟨rfl, by norm_num,
      (C4_amended aiStale 1 "user" (1/10) 7200000000).1 3 (3/10) 100 rfl
        (by norm_num)⟩,
    ⟨rfl, (C4_amended aiStale 1 "user" (1/10) 7200000000).2.2.1 3 (3/10) 100
      rfl⟩⟩

/-- C4 counterexample: `record_ai_usage` at `t = 7200 s` on an hourly tuple
whose `reset_time` expired at `100 µs` yields count 4, cost 0.4 and the
*old* `reset_time` — not the zeroed tuple with `reset_time = now + 1 h`
that the claim's "both check and record lazily reset" predicts. -/
theorem C4_cex :
    aiStale.usage_tracking 1 = some ⟨3, 3/10, 100⟩ ∧ (7200000000 : ℤ) > 100 ∧
    (record_ai_usage aiStale 1 (1/10) 7200000000).usage_tracking 1
      = some ⟨4, 2/5, 100⟩ ∧
    (4 : Nat) ≠ 1 ∧ (100 : ℤ) ≠ 7200000000 + 3600 * 1000000 := by
  refine ⟨rfl, by norm_num, ?_, by norm_num, by norm_num⟩
  have h : (record_ai_usage aiStale 1 (1/10) 7200000000).usage_tracking 1
      = some ⟨3 + 1, 3/10 + 1/10, 100⟩ := by
    have ha : aiStale.usage_tracking 1 = some ⟨3, 3/10, 100⟩ := rfl
    simp [record_ai_usage, ha]
  rw [h]
  norm_num

/-- C10: every role string outside the four configured roles gets exactly
the `"user"` limits: the quota check behaves identically to a `"user"`-role
check (same verdict and same state). -/
theorem C10_thm (s : AIState) (user_id : Nat) (user_role : String) (now : ℤ)
    (h : user_role ∉ ["admin", "employer", "freelancer", "user"]) :
    check_ai_quota s user_id user_role now
      = check_ai_quota s user_id "user" now := by
  simp only [List.mem_cons, List.mem_singleton, not_or] at h
  obtain ⟨h1, h2, h3, h4⟩ := h
  simp [check_ai_quota, hourly_limits, daily_limits, h1, h2, h3, h4]

/-- Witness for `C10_thm`: the unconfigured role `"superadmin"` is checked
exactly as `"user"`. -/
theorem C10_witness :
    ("superadmin" ∉ ["admin", "employer", "freelancer", "user"]) ∧
    check_ai_quota AIState.init 7 "superadmin" 0
      = check_ai_quota AIState.init 7 "user" 0 :=
  ⟨by decide, C10_thm AIState.init 7 "superadmin" 0 (by decide)⟩

/-- The single-key alerting automaton underlying `check_alert_threshold`:
given the key's timestamp list and last-alert entry, one logged event at
`now` prunes the hour window, appends, and fires when the threshold is
reached and no alert was sent within the last hour.  Returns
`(alert fired, new timestamp list, new last-alert entry)`. -/
def alertStep (th : Nat) (l : List ℤ) (a : Option ℤ) (now : ℤ) :
    Bool × List ℤ × Option ℤ :=
  let pruned := (l ++ [now]).filter (fun t => now - 3600 * 1000000 < t)
  if th ≤ pruned.length then
    match a with
    | some last =>
        if now - last < 3600 * 1000000 then (false, pruned, a)
        else (true, pruned, some now)
    | none => (true, pruned, some now)
  else (false, pruned, a)

/-- One `log_security_event` call moves the logged key's `event_counts`
and `alerts_sent` entries exactly as `alertStep` does, and reports
`alerted` accordingly. -/
lemma log_proj (et : SecurityEventType) (th : Nat)
    (sev : SecurityEventSeverity) (ip : Option String)
    (hth : alert_thresholds et = some th) (s : SMState) (l : List ℤ)
    (a : Option ℤ) (now : ℤ) (hl : s.event_counts (eventKey et ip) = l)
    (ha : s.alerts_sent (eventKey et ip) = a) :
    (log_security_event s et sev ip now).1.alerted = (alertStep th l a now).1 ∧
    (log_security_event s et sev ip now).2.event_counts (eventKey et ip)
      = (alertStep th l a now).2.1 ∧
    (log_security_event s et sev ip now).2.alerts_sent (eventKey et ip)
      = (alertStep th l a now).2.2 := by
  cases a with
  | none =>
      simp only [log_security_event, check_alert_threshold, hth, alertStep,
        hl, ha, upd_same]
      split <;> simp [upd_same, ha, hl]
  | some last =>
      simp only [log_security_event, check_alert_threshold, hth, alertStep,
        hl, ha, upd_same]
      split <;> split_ifs <;> simp [upd_same, ha, hl]

/-- Iterate `alertStep` over a list of instants, counting fired alerts. -/
def autoRun (th : Nat) : List ℤ × Option ℤ → List ℤ → Nat × (List ℤ × Option ℤ)
  | st, [] => (0, st)
  | (l, a), t :: ts =>
      let st := alertStep th l a t
      let rest := autoRun th st.2 ts
      ((if st.1 then 1 else 0) + rest.1, rest.2)

/-- Log one event per instant of the list, counting how many of the calls
fired a threshold alert. -/
def runLogs (s : SMState) (et : SecurityEventType)
    (sev : SecurityEventSeverity) (ip : Option String) :
    List ℤ → Nat × SMState
  | [] => (0, s)
  | t :: ts =>
      let r := log_security_event s et sev ip t
      let rest := runLogs r.2 et sev ip ts
      ((if r.1.alerted then 1 else 0) + rest.1, rest.2)

/-- A run of logged events for one key counts exactly the alerts of the
`alertStep` automaton run from that key's entries. -/
lemma runLogs_proj (et : SecurityEventType) (th : Nat)
    (sev : SecurityEventSeverity) (ip : Option String)
    (hth : alert_thresholds et = some th) :
    ∀ (ts : List ℤ) (s : SMState) (l : List ℤ) (a : Option ℤ),
      s.event_counts (eventKey et ip) = l →
      s.alerts_sent (eventKey et ip) = a →
      (runLogs s et sev ip ts).1 = (autoRun th (l, a) ts).1 ∧
      (runLogs s et sev ip ts).2.event_counts (eventKey et ip)
        = (autoRun th (l, a) ts).2.1 ∧
      (runLogs s et sev ip ts).2.alerts_sent (eventKey et ip)
        = (autoRun th (l, a) ts).2.2
  | [], s, l, a, hl, ha => ⟨rfl, hl, ha⟩
  | t :: ts, s, l, a, hl, ha => by
      obtain ⟨hb, hc, hd⟩ := log_proj et th sev ip hth s l a t hl ha
      obtain ⟨ih1, ih2, ih3⟩ := runLogs_proj et th sev ip hth ts
        (log_security_event s et sev ip t).2 (alertStep th l a t).2.1
        (alertStep th l a t).2.2 hc hd
      refine ⟨?_, ?_, ?_⟩ <;>
        simp only [runLogs, autoRun, hb, ih1, ih2, ih3]

/-- C5: for every IP, logging ten `failed_login` events for that IP at
`t = 0 … 9 s` (within one hour) fires exactly one alert; ten further
qualifying events at `t = 10 … 19 s`, still within the same hour, fire no
additional alert for that `(event_type, ip)` key; and a fresh burst of ten
events at `t = 3700 … 3709 s` — more than one hour after the first alert —
fires exactly one more. -/
theorem C5_thm (ip : String) :
    (runLogs SMState.init SecurityEventType.failed_login
        SecurityEventSeverity.medium (some ip)
        [0, 1000000, 2000000, 3000000, 4000000, 5000000, 6000000, 7000000,
         8000000, 9000000]).1 = 1 ∧
    (runLogs (runLogs SMState.init SecurityEventType.failed_login
        SecurityEventSeverity.medium (some ip)
        [0, 1000000, 2000000, 3000000, 4000000, 5000000, 6000000, 7000000,
         8000000, 9000000]).2 SecurityEventType.failed_login
        SecurityEventSeverity.medium (some ip)
        [10000000, 11000000, 12000000, 13000000, 14000000, 15000000,
         16000000, 17000000, 18000000, 19000000]).1 = 0 ∧
    (runLogs (runLogs (runLogs SMState.init SecurityEventType.failed_login
        SecurityEventSeverity.medium (some ip)
        [0, 1000000, 2000000, 3000000, 4000000, 5000000, 6000000, 7000000,
         8000000, 9000000]).2 SecurityEventType.failed_login
        SecurityEventSeverity.medium (some ip)
        [10000000, 11000000, 12000000, 13000000, 14000000, 15000000,
         16000000, 17000000, 18000000, 19000000]).2
        SecurityEventType.failed_login SecurityEventSeverity.medium (some ip)
        [3700000000, 3701000000, 3702000000, 3703000000, 3704000000,
         3705000000, 3706000000, 3707000000, 3708000000, 3709000000]).1
      = 1 := by
  have hth : alert_thresholds SecurityEventType.failed_login = some 10 := rfl
  obtain ⟨h11, h12, h13⟩ := runLogs_proj SecurityEventType.failed_login 10
    SecurityEventSeverity.medium (some ip) hth
    [0, 1000000, 2000000, 3000000, 4000000, 5000000, 6000000, 7000000,
     8000000, 9000000] SMState.init [] none rfl rfl
  obtain ⟨h21, h22, h23⟩ := runLogs_proj SecurityEventType.failed_login 10
    SecurityEventSeverity.medium (some ip) hth
    [10000000, 11000000, 12000000, 13000000, 14000000, 15000000, 16000000,
     17000000, 18000000, 19000000] _ _ _ h12 h13
  obtain ⟨h31, _, _⟩ := runLogs_proj SecurityEventType.failed_login 10
    SecurityEventSeverity.medium (some ip) hth
    [3700000000, 3701000000, 3702000000, 3703000000, 3704000000, 3705000000,
     3706000000, 3707000000, 3708000000, 3709000000] _ _ _ h22 h23
  refine ⟨?_, ?_, ?_⟩
  · rw [h11]
    decide
  · rw [h21]
    decide
  · rw [h31]
    decide

/-- `check_alert_threshold` never touches the event log. -/
lemma check_alert_events (s : SMState) (et : SecurityEventType)
    (ip : Option String) (now : ℤ) :
    (check_alert_threshold s et ip now).2.events = s.events := by
  unfold check_alert_threshold
  cases alert_thresholds et
  · rfl
  · dsimp only
    split
    · split
      · split <;> rfl
      · rfl
    · rfl

/-- C6: after every log operation the event list holds at most 10,000
entries — exactly `min (old + 1) 10000` — and is a suffix of the old list
with the new event appended, i.e. the retained entries are the most recent
ones and only the oldest are evicted. -/
theorem C6_thm (s : SMState) (et : SecurityEventType)
    (sev : SecurityEventSeverity) (ip : Option String) (now : ℤ) :
    (log_security_event s et sev ip now).2.events.length
      = min (s.events.length + 1) 10000 ∧
    (log_security_event s et sev ip now).2.events.IsSuffix
      (s.events ++ [SMEvent.mk now et sev ip]) := by
  have hev : (log_security_event s et sev ip now).2.events
      = if 10000 < (s.events ++ [SMEvent.mk now et sev ip]).length
        then (s.events ++ [SMEvent.mk now et sev ip]).drop
          ((s.events ++ [SMEvent.mk now et sev ip]).length - 10000)
        else s.events ++ [SMEvent.mk now et sev ip] := by
    simp only [log_security_event]
    rw [check_alert_events]
  rw [hev]
  constructor
  · split
    · next h =>
        simp only [List.length_drop, List.length_append,
          List.length_singleton] at *
        omega
    · next h =>
        simp only [List.length_append, List.length_singleton] at *
        omega
  · split
    · exact List.drop_suffix _ _
    · exact List.suffix_rfl

end QW
